import Mathlib

/-!
Verification development for the vbucket worker of the secondary-index
projector (secondary/projector/worker.go).

The Go maps are embedded as association lists; Go map assignment is
aupsert, Go delete is aerase, Go indexing is alookup.  The worker's
side effects (payload broadcasts, endpoint sends/closures, transform
invocations, process exit, termination signalling) are made explicit
as a trace of actions returned next to the new state.

Functions of this repository that live in vbucket.go (not available
here) -- NewVbucket and the make*Data payload constructors -- are
modelled from the spec and marked as such in their doc comments.
-/

namespace Projector

/-- Association-list lookup, embedding Go map indexing. -/
def alookup {α β : Type} [DecidableEq α] : List (α × β) → α → Option β
  | [], _ => none
  | (k', v) :: rest, k => if k = k' then some v else alookup rest k

/-- Association-list insert-or-replace, embedding Go map assignment. -/
def aupsert {α β : Type} [DecidableEq α] : List (α × β) → α → β → List (α × β)
  | [], k, v => [(k, v)]
  | (k', v') :: rest, k, v =>
    if k = k' then (k, v) :: rest else (k', v') :: aupsert rest k v

/-- Association-list removal, embedding Go map delete. -/
def aerase {α β : Type} [DecidableEq α] : List (α × β) → α → List (α × β)
  | [], _ => []
  | (k', v) :: rest, k =>
    if k = k' then aerase rest k else (k', v) :: aerase rest k

/-- DCP opcodes handled by VbucketWorker.handleEvent
(mcd.DCP_STREAMREQ, DCP_SNAPSHOT, DCP_MUTATION, DCP_DELETION,
DCP_EXPIRATION, DCP_SYSTEM_EVENT, DCP_SEQNO_ADVANCED,
DCP_OSO_SNAPSHOT, DCP_STREAMEND). -/
inductive Opcode where
  | streamReq
  | snapshot
  | mutation
  | deletion
  | expiration
  | systemEvent
  | seqnoAdvanced
  | osoSnapshot
  | streamEnd
deriving DecidableEq

/-- mcd.SUCCESS status code. -/
def SUCCESS : Nat := 0

/-- mc.DcpEvent: the fields of an upstream change-feed event that the
worker inspects.  The Go field Opaque (the correlation id) is renamed
to opaq because its name is a Lean keyword; VBuuid is the epoch id. -/
structure DcpEvent where
  opcode : Opcode
  vbucket : Nat
  opaq : Nat
  vbuuid : Nat
  seqno : Nat
  status : Nat
  collectionID : Nat
deriving DecidableEq

/-- Per-shard stream state (struct Vbucket of vbucket.go, with the
fields worker.go reads and writes; Opaque renamed to opaq). -/
structure Vbucket where
  vbno : Nat
  opaq : Nat
  vbuuid : Nat
  seqno : Nat
  syncCount : Nat
  sshotCount : Nat
  mutationCount : Nat
deriving DecidableEq

/-- Modelled from the spec: NewVbucket (vbucket.go, not in src) creates
the shard state with the shard's epoch id and starting sequence number;
all counters start at zero. -/
def NewVbucket (opaq vbno vbuuid seqno : Nat) : Vbucket :=
  { vbno := vbno, opaq := opaq, vbuuid := vbuuid, seqno := seqno,
    syncCount := 0, sshotCount := 0, mutationCount := 0 }

/-- The payloads the worker publishes (the interface values produced by
the make*Data constructors of vbucket.go and by TransformRoute). -/
inductive Payload where
  | streamBegin (vbno status : Nat)
  | snapshot (vbno seqno : Nat)
  | updateSeqno (vbno seqno : Nat)
  | systemEvent (vbno seqno : Nat)
  | seqnoAdvanced (vbno seqno : Nat)
  | osoSnapshot (vbno : Nat)
  | streamEnd (vbno seqno : Nat)
  | sync (vbno seqno : Nat)
  | keyVersions (addr : String) (vbno seqno : Nat) (frags : List Nat)
deriving DecidableEq

/-- c.RouterEndpoint: a sink.  send returns true on success, false when
Send returns an error (in which case the worker must evict the sink). -/
structure RouterEndpoint where
  send : Payload → Bool

/-- Engine: the per-index projection unit, as the worker sees it
(GetCollectionID, Endpoints, and the scratch-buffer growth that
TransformRoute may report back). -/
structure Engine where
  collectionID : Nat
  endpoints : List String
  bufGrow : Nat

/-- Observable side effects of the worker, recorded as a trace. -/
inductive Action where
  | send (addr : String) (p : Payload) (ok : Bool)
  | closeEp (addr : String)
  | publish (p : Payload)
  | transform (uuid : Nat)
  | osExit
  | closeFinch
  | setClosed
deriving DecidableEq

/-- engines map: CollectionId -> instanceId -> Engine. -/
abbrev EngineMap := List (Nat × List (Nat × Engine))

/-- endpoints map: address -> RouterEndpoint. -/
abbrev EndpointMap := List (String × RouterEndpoint)

/-- The mutable state of a VbucketWorker (worker.go struct
VbucketWorker), restricted to the fields the event loop mutates:
the per-shard states, the engine and endpoint maps, the reusable
encode-buffer capacity and the worker statistics. -/
structure VbucketWorker where
  vbuckets : List (Nat × Vbucket)
  engines : EngineMap
  endpoints : EndpointMap
  encodeBuf : Nat
  statOutgoingMut : Nat
  statUpdateSeqno : Nat
  statClosed : Bool

/-- Modelled from the spec: makeStreamBeginData (vbucket.go, not in
src) publishes a StreamBegin signal carrying the status, so consumers
observe successful and failed attempts alike. -/
def makeStreamBeginData (v : Vbucket) (status : Nat) : Option Payload :=
  some (Payload.streamBegin v.vbno status)

/-- Modelled from the spec: makeSnapshotData (vbucket.go, not in src)
publishes a snapshot-boundary signal. -/
def makeSnapshotData (v : Vbucket) : Option Payload :=
  some (Payload.snapshot v.vbno v.seqno)

/-- Modelled from the spec: makeUpdateSeqnoData (vbucket.go, not in
src) publishes the update-sequence-only signal that lets consumers
advance session-consistency tracking for unindexed collections. -/
def makeUpdateSeqnoData (v : Vbucket) : Option Payload :=
  some (Payload.updateSeqno v.vbno v.seqno)

/-- Modelled from the spec: makeSystemEventData (vbucket.go, not in
src). -/
def makeSystemEventData (v : Vbucket) : Option Payload :=
  some (Payload.systemEvent v.vbno v.seqno)

/-- Modelled from the spec: makeSeqnoAdvancedEvent (vbucket.go, not in
src). -/
def makeSeqnoAdvancedEvent (v : Vbucket) : Option Payload :=
  some (Payload.seqnoAdvanced v.vbno v.seqno)

/-- Modelled from the spec: makeOSOSnapshotEvent (vbucket.go, not in
src). -/
def makeOSOSnapshotEvent (v : Vbucket) : Option Payload :=
  some (Payload.osoSnapshot v.vbno)

/-- Modelled from the spec: makeStreamEndData (vbucket.go, not in src);
per the spec every still-Open shard is forced through a synthesized
StreamEnd, so the constructor always yields a payload. -/
def makeStreamEndData (v : Vbucket) : Option Payload :=
  some (Payload.streamEnd v.vbno v.seqno)

/-- Modelled from the spec: makeSyncData (vbucket.go, not in src)
publishes a heartbeat signal for one shard. -/
def makeSyncData (v : Vbucket) : Option Payload :=
  some (Payload.sync v.vbno v.seqno)

/-- The send loop of VbucketWorker.broadcast2Endpoints: attempt Send to
every endpoint in the map; a failed Send closes and deletes exactly
that endpoint. -/
def sendAll : EndpointMap → Payload → EndpointMap × List Action
  | [], _ => ([], [])
  | (addr, ep) :: rest, p =>
    if ep.send p then
      ((addr, ep) :: (sendAll rest p).1, Action.send addr p true :: (sendAll rest p).2)
    else
      ((sendAll rest p).1,
        Action.send addr p false :: Action.closeEp addr :: (sendAll rest p).2)

/-- VbucketWorker.broadcast2Endpoints: deliver one payload to every
known endpoint, evicting the ones whose Send fails. -/
def VbucketWorker.broadcast2Endpoints (w : VbucketWorker) (p : Payload) :
    VbucketWorker × List Action :=
  ({ w with endpoints := (sendAll w.endpoints p).1 },
    Action.publish p :: (sendAll w.endpoints p).2)

/-- Modelled from the spec: Engine.TransformRoute (external call
contract) appends projected payload fragments into the accumulator
keyed by sink address; here each engine appends its instance id as a
fragment under every sink address it references. -/
def transformRoute (uuid : Nat) (e : Engine) (acc : List (String × List Nat)) :
    List (String × List Nat) :=
  e.endpoints.foldl
    (fun a raddr =>
      match alookup a raddr with
      | some frags => aupsert a raddr (frags ++ [uuid])
      | none => aupsert a raddr [uuid])
    acc

/-- The engine loop of processMutation: invoke every engine registered
for the event's collection, accumulating per-sink data and keeping the
larger scratch buffer (worker.go lines 494-513). -/
def runTransforms : List (Nat × Engine) → Nat → List (String × List Nat) →
    List (String × List Nat) × Nat × List Action
  | [], buf, acc => (acc, buf, [])
  | (uuid, e) :: rest, buf, acc =>
    let r := runTransforms rest (if e.bufGrow > buf then e.bufGrow else buf)
      (transformRoute uuid e acc)
    (r.1, r.2.1, Action.transform uuid :: r.2.2)

/-- The delivery loop of processMutation (worker.go lines 515-528):
send each accumulated datum to its endpoint if that endpoint is still
in the map; a failed Send closes and deletes that one endpoint. -/
def sendToEndpoints (eps : EndpointMap) :
    List (String × Payload) → EndpointMap × List Action
  | [] => (eps, [])
  | (raddr, data) :: rest =>
    match alookup eps raddr with
    | none => sendToEndpoints eps rest
    | some ep =>
      if ep.send data then
        ((sendToEndpoints eps rest).1,
          Action.send raddr data true :: (sendToEndpoints eps rest).2)
      else
        ((sendToEndpoints (aerase eps raddr) rest).1,
          Action.send raddr data false :: Action.closeEp raddr ::
            (sendToEndpoints (aerase eps raddr) rest).2)

/-- The processMutation closure of VbucketWorker.handleEvent: run every
matching engine's transform, then deliver one aggregated payload per
referenced sink. -/
def VbucketWorker.processMutation (w : VbucketWorker) (v : Vbucket)
    (engines : List (Nat × Engine)) : VbucketWorker × List Action :=
  let t := runTransforms engines w.encodeBuf []
  let datas := t.1.map
    (fun kv => (kv.1, Payload.keyVersions kv.1 v.vbno v.seqno kv.2))
  let s := sendToEndpoints w.endpoints datas
  ({ w with endpoints := s.1, encodeBuf := t.2.1 }, t.2.2 ++ s.2)

/-- VbucketWorker.handleEvent (worker.go lines 408-601): the per-event
state machine.  Returns the new worker state, the Vbucket the Go code
returns (none embeds a nil return), and the trace of side effects. -/
def VbucketWorker.handleEvent (w : VbucketWorker) (m : DcpEvent) :
    VbucketWorker × Option Vbucket × List Action :=
  match m.opcode with
  | Opcode.streamReq =>
    if m.status = SUCCESS ∧ (alookup w.vbuckets m.vbucket).isSome then
      -- duplicate OpStreamRequest: log and return the existing state
      (w, alookup w.vbuckets m.vbucket, [])
    else
      let v' := NewVbucket m.opaq m.vbucket m.vbuuid m.seqno
      let w1 := if m.status = SUCCESS then
          { w with vbuckets := aupsert w.vbuckets m.vbucket v' }
        else w
      match makeStreamBeginData v' m.status with
      | some d =>
        let r := w1.broadcast2Endpoints d
        (r.1, some v', r.2)
      | none => (w1, some v', [])
  | Opcode.snapshot =>
    match alookup w.vbuckets m.vbucket with
    | none => (w, none, [])
    | some v =>
      match makeSnapshotData v with
      | some d =>
        let r := w.broadcast2Endpoints d
        let v' := { v with sshotCount := v.sshotCount + 1 }
        ({ r.1 with vbuckets := aupsert w.vbuckets m.vbucket v' }, some v', r.2)
      | none => (w, some v, [])
  | Opcode.mutation | Opcode.deletion | Opcode.expiration =>
    match alookup w.vbuckets m.vbucket with
    | none => (w, none, [])
    | some v =>
      let v' := { v with mutationCount := v.mutationCount + 1, seqno := m.seqno }
      let w1 := { w with vbuckets := aupsert w.vbuckets m.vbucket v' }
      match alookup w1.engines m.collectionID with
      | some engines =>
        let r := w1.processMutation v' engines
        (r.1, some v', r.2)
      | none =>
        let w2 := { w1 with statUpdateSeqno := w1.statUpdateSeqno + 1 }
        match makeUpdateSeqnoData v' with
        | some d =>
          let r := w2.broadcast2Endpoints d
          (r.1, some v', r.2)
        | none => (w2, some v', [])
  | Opcode.systemEvent =>
    match alookup w.vbuckets m.vbucket with
    | none => (w, none, [])
    | some v =>
      let v' := { v with seqno := m.seqno }
      let w1 := { w with vbuckets := aupsert w.vbuckets m.vbucket v' }
      match makeSystemEventData v' with
      | some d =>
        let r := w1.broadcast2Endpoints d
        (r.1, some v', r.2)
      | none => (w1, some v', [])
  | Opcode.seqnoAdvanced =>
    match alookup w.vbuckets m.vbucket with
    | none => (w, none, [])
    | some v =>
      let v' := { v with seqno := m.seqno }
      let w1 := { w with vbuckets := aupsert w.vbuckets m.vbucket v' }
      match makeSeqnoAdvancedEvent v' with
      | some d =>
        let r := w1.broadcast2Endpoints d
        (r.1, some v', r.2)
      | none => (w1, some v', [])
  | Opcode.osoSnapshot =>
    match alookup w.vbuckets m.vbucket with
    | none => (w, none, [])
    | some v =>
      match makeOSOSnapshotEvent v with
      | some d =>
        let r := w.broadcast2Endpoints d
        (r.1, some v, r.2)
      | none => (w, some v, [])
  | Opcode.streamEnd =>
    match alookup w.vbuckets m.vbucket with
    | none => (w, none, [])
    | some v =>
      match makeStreamEndData v with
      | some d =>
        let r := w.broadcast2Endpoints d
        ({ r.1 with vbuckets := aerase r.1.vbuckets m.vbucket }, some v, r.2)
      | none => ({ w with vbuckets := aerase w.vbuckets m.vbucket }, some v, [])

/-- Whether the event loop keeps running or the process is terminated
(os.Exit in worker.go line 268). -/
inductive Outcome where
  | next
  | exit
deriving DecidableEq

/-- The vwCmdEvent arm of VbucketWorker.run (worker.go lines 253-269):
count the event, dispatch handleEvent, then either log a nil vbucket,
delete the shard state on StreamEnd, terminate the process on a
correlation-id mismatch, or continue. -/
def VbucketWorker.runStepEvent (w : VbucketWorker) (m : DcpEvent) :
    VbucketWorker × Outcome × List Action :=
  let w1 := { w with statOutgoingMut := w.statOutgoingMut + 1 }
  let r := w1.handleEvent m
  match r.2.1 with
  | none => (r.1, Outcome.next, r.2.2)
  | some v =>
    if m.opcode = Opcode.streamEnd then
      ({ r.1 with vbuckets := aerase r.1.vbuckets v.vbno }, Outcome.next, r.2.2)
    else if m.opaq ≠ v.opaq then
      (r.1, Outcome.exit, r.2.2 ++ [Action.osExit])
    else
      (r.1, Outcome.next, r.2.2)

/-- The vwCmdSyncPulse arm of VbucketWorker.run (worker.go lines
271-283): one sync signal per owned shard. -/
def VbucketWorker.runStepSyncPulse (w : VbucketWorker) : VbucketWorker × List Action :=
  w.vbuckets.foldl
    (fun acc kv =>
      match makeSyncData kv.2 with
      | some d =>
        let v' := { kv.2 with syncCount := kv.2.syncCount + 1 }
        let w1 := { acc.1 with vbuckets := aupsert acc.1.vbuckets kv.1 v' }
        let r := w1.broadcast2Endpoints d
        (r.1, acc.2 ++ r.2)
      | none => acc)
    (w, [])

/-- Commands posted on the worker's control channel (worker.go
vwCmd* constants with their payloads). -/
inductive Command where
  | getVbuckets
  | addEngines (opaq : Nat) (engines : Option (List (Nat × Engine)))
      (endpoints : Option EndpointMap)
  | delEngines (opaq : Nat) (engineKeys : List Nat) (collectionIds : List Nat)
  | getStats
  | resetConfig
  | close

/-- Synchronous responses sent back on a command's response channel. -/
inductive Response where
  | vbuckets (vs : List Vbucket)
  | seqnos (cseqnos : List (Nat × Nat))
  | stats (s : List (Nat × (Nat × Nat × Nat)))
  | ok

/-- The engine-installation loop of vwCmdAddEngines (worker.go lines
314-321): key each passed engine by its collection id, then by its
instance id, into a freshly created map. -/
def installEngines (es : List (Nat × Engine)) : EngineMap :=
  es.foldl
    (fun eng kv =>
      let cid := kv.2.collectionID
      match alookup eng cid with
      | some perColl => aupsert eng cid (aupsert perColl kv.1 kv.2)
      | none => aupsert eng cid [(kv.1, kv.2)])
    []

/-- The engine-deletion loop of vwCmdDelEngines (worker.go lines
343-350): remove each (instance id, collection id) pair, dropping a
collection's sub-map once it is empty. -/
def deleteEngines (eng : EngineMap) (pairs : List (Nat × Nat)) : EngineMap :=
  pairs.foldl
    (fun eng kv =>
      let perColl := aerase ((alookup eng kv.2).getD []) kv.1
      if perColl.length = 0 then aerase eng kv.2
      else aupsert eng kv.2 perColl)
    eng

/-- Addresses referenced by the engines of one collection, in map
order. -/
def engineAddrs : List (Nat × Engine) → List String
  | [] => []
  | (_, e) :: rest => e.endpoints ++ engineAddrs rest

/-- All addresses referenced by currently-installed engines, in map
order (the iteration space of VbucketWorker.updateEndpoints). -/
def collectAddrs : EngineMap → List String
  | [] => []
  | (_, perColl) :: rest => engineAddrs perColl ++ collectAddrs rest

/-- The filtering loop of VbucketWorker.updateEndpoints: keep a
referenced address only when the supervisor-provided candidate set
holds it, skipping (with a log) the ones it does not. -/
def buildEndpoints (eps : EndpointMap) : List String → EndpointMap → EndpointMap
  | [], res => res
  | raddr :: rest, res =>
    match alookup eps raddr with
    | none => buildEndpoints eps rest res
    | some ep => buildEndpoints eps rest (aupsert res raddr ep)

/-- VbucketWorker.updateEndpoints (worker.go lines 384-404): rebuild
the endpoint table from the currently-installed engines and the
candidate set. -/
def VbucketWorker.updateEndpoints (w : VbucketWorker) (eps : EndpointMap) :
    EndpointMap :=
  buildEndpoints eps (collectAddrs w.engines) []

/-- VbucketWorker.handleCommand (worker.go lines 293-381).  Returns the
new worker state, the response posted on the command's response
channel, and the breakloop flag. -/
def VbucketWorker.handleCommand (w : VbucketWorker) (cmd : Command) :
    VbucketWorker × Response × Bool :=
  match cmd with
  | Command.getVbuckets =>
    (w, Response.vbuckets (w.vbuckets.map Prod.snd), false)
  | Command.addEngines _ engines? endpoints? =>
    let w1 := { w with engines := [] }
    let w2 := match engines? with
      | some es => { w1 with engines := installEngines es }
      | none => w1
    let w3 := match endpoints? with
      | some eps => { w2 with endpoints := w2.updateEndpoints eps }
      | none => w2
    (w3, Response.seqnos (w3.vbuckets.map (fun kv => (kv.1, kv.2.seqno))), false)
  | Command.delEngines _ engineKeys collectionIds =>
    ({ w with engines := deleteEngines w.engines (engineKeys.zip collectionIds) },
      Response.ok, false)
  | Command.getStats =>
    (w, Response.stats (w.vbuckets.map
      (fun kv => (kv.1, (kv.2.syncCount, kv.2.sshotCount, kv.2.mutationCount)))),
      false)
  | Command.resetConfig => (w, Response.ok, false)
  | Command.close => (w, Response.ok, true)

/-- The StreamEnd loop of the deferred shutdown block of
VbucketWorker.run (worker.go lines 223-231): call out a StreamEnd for
every still-Open shard. -/
def shutdownLoop (w : VbucketWorker) : List (Nat × Vbucket) →
    VbucketWorker × List Action
  | [] => (w, [])
  | kv :: rest =>
    match makeStreamEndData kv.2 with
    | some d =>
      let r := w.broadcast2Endpoints d
      let s := shutdownLoop r.1 rest
      (s.1, r.2 ++ s.2)
    | none => shutdownLoop w rest

/-- The deferred shutdown block of VbucketWorker.run (worker.go lines
217-236): synthesize StreamEnd for all Open shards, close the
termination channel, set the closed statistic. -/
def VbucketWorker.shutdown (w : VbucketWorker) : VbucketWorker × List Action :=
  let s := shutdownLoop w w.vbuckets
  ({ s.1 with statClosed := true },
    s.2 ++ [Action.closeFinch, Action.setClosed])

/-- The full close path: vwCmdClose makes handleCommand return the
breakloop flag (worker.go lines 374-378), the loop exits, and the
deferred shutdown runs. -/
def VbucketWorker.closeWorker (w : VbucketWorker) : VbucketWorker × List Action :=
  ((w.handleCommand Command.close).1).shutdown

/-- Addresses of the Send attempts recorded in a trace. -/
def sentAddrs (tr : List Action) : List String :=
  tr.filterMap (fun a =>
    match a with
    | Action.send addr _ _ => some addr
    | _ => none)

/-- Number of transform invocations recorded in a trace. -/
def transformCount (tr : List Action) : Nat :=
  (tr.filterMap (fun a =>
    match a with
    | Action.transform uuid => some uuid
    | _ => none)).length

/-- Shard ids of the StreamEnd publications recorded in a trace. -/
def streamEndVbnos (tr : List Action) : List Nat :=
  tr.filterMap (fun a =>
    match a with
    | Action.publish (Payload.streamEnd vbno _) => some vbno
    | _ => none)

/-- Sequence number currently stored for one shard, when Open. -/
def storedSeqno (w : VbucketWorker) (vbno : Nat) : Option Nat :=
  (alookup w.vbuckets vbno).map Vbucket.seqno

/-- Correlation id currently stored for one shard, when Open. -/
def storedOpaq (w : VbucketWorker) (vbno : Nat) : Option Nat :=
  (alookup w.vbuckets vbno).map Vbucket.opaq

/-- Lookup through both levels of the engine map. -/
def lookup2 (eng : EngineMap) (cid uuid : Nat) : Option Engine :=
  match alookup eng cid with
  | some perColl => alookup perColl uuid
  | none => none

/-- One installation step of the vwCmdAddEngines loop. -/
def instStep (eng : EngineMap) (kv : Nat × Engine) : EngineMap :=
  match alookup eng kv.2.collectionID with
  | some perColl => aupsert eng kv.2.collectionID (aupsert perColl kv.1 kv.2)
  | none => aupsert eng kv.2.collectionID [(kv.1, kv.2)]

/-- Concrete sink that accepts every payload (fixture for witnesses). -/
def epOkFix : RouterEndpoint := { send := fun _ => true }

/-- Concrete sink that rejects every payload (fixture for witnesses). -/
def epFailFix : RouterEndpoint := { send := fun _ => false }

/-- Concrete Open shard state on shard 1 (fixture for witnesses). -/
def vbFix : Vbucket := NewVbucket 7 1 100 2

/-- Concrete Open shard state on shard 2 (fixture for witnesses). -/
def vbFix2 : Vbucket := NewVbucket 8 2 200 20

/-- Engine on collection 1 routed to sink A (fixture for witnesses). -/
def engAFix : Engine := { collectionID := 1, endpoints := ["A"], bufGrow := 0 }

/-- Engine on collection 2 routed to sink B (fixture for witnesses). -/
def engBFix : Engine := { collectionID := 2, endpoints := ["B"], bufGrow := 0 }

/-- Worker with one Open shard and nothing installed (fixture). -/
def wOpenFix : VbucketWorker :=
  { vbuckets := [(1, vbFix)], engines := [], endpoints := [],
    encodeBuf := 0, statOutgoingMut := 0, statUpdateSeqno := 4,
    statClosed := false }

/-- Worker with no Open shard (fixture). -/
def wEmptyFix : VbucketWorker :=
  { vbuckets := [], engines := [], endpoints := [], encodeBuf := 0,
    statOutgoingMut := 0, statUpdateSeqno := 0, statClosed := false }

/-- Worker with one installed engine and nothing else (fixture). -/
def wEngFix : VbucketWorker :=
  { vbuckets := [], engines := [(2, [(5, engBFix)])], endpoints := [],
    encodeBuf := 0, statOutgoingMut := 0, statUpdateSeqno := 0,
    statClosed := false }

/-- Worker with two Open shards and one endpoint (fixture). -/
def wTwoFix : VbucketWorker :=
  { vbuckets := [(1, vbFix), (2, vbFix2)], engines := [],
    endpoints := [("A", epOkFix)], encodeBuf := 0, statOutgoingMut := 0,
    statUpdateSeqno := 0, statClosed := false }

/-- Worker with one live endpoint and nothing else (fixture). -/
def wEpFix : VbucketWorker :=
  { vbuckets := [], engines := [], endpoints := [("A", epOkFix)],
    encodeBuf := 0, statOutgoingMut := 0, statUpdateSeqno := 0,
    statClosed := false }

/-- Candidate endpoint set holding sinks A and B (fixture). -/
def candidatesFix : EndpointMap := [("A", epOkFix), ("B", epOkFix)]

/-- Mutation on shard 1 collection 3 (fixture). -/
def mMutFix : DcpEvent :=
  { opcode := Opcode.mutation, vbucket := 1, opaq := 7, vbuuid := 100,
    seqno := 5, status := 0, collectionID := 3 }

/-- Mutation on shard 1 for a collection with no engine (fixture). -/
def mMutNoEngFix : DcpEvent :=
  { opcode := Opcode.mutation, vbucket := 1, opaq := 7, vbuuid := 100,
    seqno := 6, status := 0, collectionID := 2 }

/-- Successful StreamBegin for the already-Open shard 1 (fixture). -/
def mDupFix : DcpEvent :=
  { opcode := Opcode.streamReq, vbucket := 1, opaq := 9, vbuuid := 100,
    seqno := 0, status := 0, collectionID := 0 }

/-- Snapshot marker for a shard that is not Open (fixture). -/
def mSnapFix : DcpEvent :=
  { opcode := Opcode.snapshot, vbucket := 3, opaq := 9, vbuuid := 100,
    seqno := 4, status := 0, collectionID := 0 }

/-- Deletion on shard 1 for a collection with no engine (fixture). -/
def mDelFix : DcpEvent :=
  { opcode := Opcode.deletion, vbucket := 1, opaq := 7, vbuuid := 100,
    seqno := 8, status := 0, collectionID := 9 }

/-- Mutation on shard 1 whose epoch id disagrees with the stored one
while its correlation id agrees (fixture). -/
def mEpochFix : DcpEvent :=
  { opcode := Opcode.mutation, vbucket := 1, opaq := 7, vbuuid := 999,
    seqno := 5, status := 0, collectionID := 3 }

/-- The endpoint-table exactness property the spec claims after every
engine-map mutation: an address is in the table exactly when a
currently-installed engine references it and the candidate set holds
it. -/
def endpointsExactly (w : VbucketWorker) (candidates : EndpointMap) : Prop :=
  ∀ a : String, (alookup w.endpoints a).isSome = true ↔
    (a ∈ collectAddrs w.engines ∧ (alookup candidates a).isSome = true)

theorem alookup_aupsert {α β : Type} [DecidableEq α]
    (l : List (α × β)) (k k' : α) (v : β) :
    alookup (aupsert l k v) k' = if k' = k then some v else alookup l k' := by
  induction l with
  | nil => by_cases h : k' = k <;> simp [aupsert, alookup, h]
  | cons kv rest ih =>
    obtain ⟨k0, v0⟩ := kv
    by_cases h0 : k = k0
    · subst h0
      by_cases h : k' = k <;> simp [aupsert, alookup, h]
    · by_cases h : k' = k0
      · subst h
        simp [aupsert, alookup, h0, Ne.symm h0]
      · simp [aupsert, alookup, h0, h, ih]

theorem alookup_aerase {α β : Type} [DecidableEq α]
    (l : List (α × β)) (k k' : α) :
    alookup (aerase l k) k' = if k' = k then none else alookup l k' := by
  induction l with
  | nil => by_cases h : k' = k <;> simp [aerase, alookup, h]
  | cons kv rest ih =>
    obtain ⟨k0, v0⟩ := kv
    by_cases h0 : k = k0
    · subst h0
      by_cases h : k' = k
      · subst h
        simp [aerase, ih]
      · simp [aerase, alookup, h, ih]
    · by_cases h : k' = k0
      · subst h
        simp [aerase, alookup, h0, Ne.symm h0, alookup, ih]
      · simp [aerase, alookup, h0, h, ih]

theorem sendAll_fst (eps : EndpointMap) (p : Payload) :
    (sendAll eps p).1 = eps.filter (fun kv => kv.2.send p) := by
  induction eps with
  | nil => rfl
  | cons kv rest ih =>
    obtain ⟨addr, ep⟩ := kv
    by_cases h : ep.send p <;> simp [sendAll, h, ih, List.filter]

theorem sentAddrs_sendAll (eps : EndpointMap) (p : Payload) :
    sentAddrs (sendAll eps p).2 = eps.map Prod.fst := by
  induction eps with
  | nil => rfl
  | cons kv rest ih =>
    obtain ⟨addr, ep⟩ := kv
    by_cases h : ep.send p <;> simp [sendAll, h, sentAddrs, ih] <;>
      simpa [sentAddrs] using ih

theorem sendAll_mem_send (eps : EndpointMap) (p : Payload)
    (kv : String × RouterEndpoint) (h : kv ∈ eps) :
    Action.send kv.1 p (kv.2.send p) ∈ (sendAll eps p).2 := by
  induction eps with
  | nil => cases h
  | cons kv0 rest ih =>
    obtain ⟨addr, ep⟩ := kv0
    rcases List.mem_cons.mp h with h0 | h0
    · subst h0
      by_cases hs : ep.send p <;> simp [sendAll, hs]
    · by_cases hs : ep.send p <;> simp [sendAll, hs, ih h0]

theorem sendAll_fail_close (eps : EndpointMap) (p : Payload)
    (kv : String × RouterEndpoint) (h : kv ∈ eps) (hf : kv.2.send p = false) :
    Action.closeEp kv.1 ∈ (sendAll eps p).2 := by
  induction eps with
  | nil => cases h
  | cons kv0 rest ih =>
    obtain ⟨addr, ep⟩ := kv0
    rcases List.mem_cons.mp h with h0 | h0
    · subst h0
      have hf' : ep.send p = false := hf
      simp [sendAll, hf']
    · by_cases hs : ep.send p <;> simp [sendAll, hs, ih h0]

theorem transformCount_sendAll (eps : EndpointMap) (p : Payload) :
    transformCount (sendAll eps p).2 = 0 := by
  induction eps with
  | nil => rfl
  | cons kv rest ih =>
    obtain ⟨addr, ep⟩ := kv
    by_cases h : ep.send p <;> simp [sendAll, h, transformCount] <;>
      simpa [transformCount] using ih

theorem streamEndVbnos_sendAll (eps : EndpointMap) (p : Payload) :
    streamEndVbnos (sendAll eps p).2 = [] := by
  induction eps with
  | nil => rfl
  | cons kv rest ih =>
    obtain ⟨addr, ep⟩ := kv
    by_cases h : ep.send p <;> simp [sendAll, h, streamEndVbnos] <;>
      simpa [streamEndVbnos] using ih

theorem alookup_eq_of_mem {α β : Type} [DecidableEq α] {l : List (α × β)}
    (hnd : (l.map Prod.fst).Nodup) {kv : α × β} (h : kv ∈ l) :
    alookup l kv.1 = some kv.2 := by
  induction l with
  | nil => cases h
  | cons kv0 rest ih =>
    obtain ⟨k0, v0⟩ := kv0
    simp only [List.map_cons, List.nodup_cons] at hnd
    rcases List.mem_cons.mp h with h0 | h0
    · subst h0
      simp [alookup]
    · have hk : kv.1 ≠ k0 := by
        intro he
        exact hnd.1 (he ▸ List.mem_map_of_mem Prod.fst h0)
      simp [alookup, hk, ih hnd.2 h0]

theorem key_inj {α β : Type} [DecidableEq α] {l : List (α × β)}
    (hnd : (l.map Prod.fst).Nodup) {kv kv' : α × β}
    (h1 : kv ∈ l) (h2 : kv' ∈ l) (he : kv.1 = kv'.1) : kv = kv' := by
  have e1 := alookup_eq_of_mem hnd h1
  have e2 := alookup_eq_of_mem hnd h2
  rw [he] at e1
  rw [e1] at e2
  obtain ⟨a, b⟩ := kv
  obtain ⟨a', b'⟩ := kv'
  simp only at he
  cases Option.some.inj e2
  cases he
  rfl

theorem sendAll_evicted (eps : EndpointMap) (p : Payload)
    (kv : String × RouterEndpoint) (hnd : (eps.map Prod.fst).Nodup)
    (h : kv ∈ eps) (hf : kv.2.send p = false) :
    kv.1 ∉ (sendAll eps p).1.map Prod.fst := by
  rw [sendAll_fst]
  intro hc
  rcases List.mem_map.mp hc with ⟨kv', hmem, hk⟩
  have := List.mem_filter.mp hmem
  have heq := key_inj hnd h this.1 hk.symm
  rw [← heq] at this
  rw [hf] at this
  exact Bool.false_ne_true this.2

theorem sendToEndpoints_none (datas : List (String × Payload)) (eps : EndpointMap)
    (a : String) (h : alookup eps a = none) :
    alookup (sendToEndpoints eps datas).1 a = none := by
  induction datas generalizing eps with
  | nil => simpa [sendToEndpoints] using h
  | cons kv rest ih =>
    obtain ⟨raddr, data⟩ := kv
    cases h0 : alookup eps raddr with
    | none => simpa [sendToEndpoints, h0] using ih eps h
    | some ep =>
      by_cases hs : ep.send data
      · simpa [sendToEndpoints, h0, hs] using ih eps h
      · have h' : alookup (aerase eps raddr) a = none := by
          rw [alookup_aerase]
          by_cases ha : a = raddr <;> simp [ha, h]
        simpa [sendToEndpoints, h0, hs] using ih (aerase eps raddr) h'

theorem sendToEndpoints_mem_send (datas : List (String × Payload))
    (eps : EndpointMap) (a : String) (d : Payload) (ep : RouterEndpoint)
    (hnd : (datas.map Prod.fst).Nodup) (hd : (a, d) ∈ datas)
    (hep : alookup eps a = some ep) :
    Action.send a d (ep.send d) ∈ (sendToEndpoints eps datas).2 := by
  induction datas generalizing eps with
  | nil => cases hd
  | cons kv rest ih =>
    obtain ⟨a0, d0⟩ := kv
    simp only [List.map_cons, List.nodup_cons] at hnd
    rcases List.mem_cons.mp hd with h0 | h0
    · cases h0
      by_cases hs : ep.send d <;> simp [sendToEndpoints, hep, hs]
    · have hne : a ≠ a0 := by
        intro he
        exact hnd.1 (he ▸ List.mem_map_of_mem Prod.fst h0)
      cases he0 : alookup eps a0 with
      | none => simpa [sendToEndpoints, he0] using ih eps hnd.2 h0 hep
      | some ep0 =>
        by_cases hs : ep0.send d0
        · have hrec := ih eps hnd.2 h0 hep
          simp only [sendToEndpoints, he0, hs, if_true, List.mem_cons]
          exact Or.inr hrec
        · have hep' : alookup (aerase eps a0) a = some ep := by
            rw [alookup_aerase]
            simp [hne, hep]
          have hrec := ih (aerase eps a0) hnd.2 h0 hep'
          simp [sendToEndpoints, he0, hs]
          exact Or.inr hrec

theorem sendToEndpoints_fail (datas : List (String × Payload))
    (eps : EndpointMap) (a : String) (d : Payload) (ep : RouterEndpoint)
    (hnd : (datas.map Prod.fst).Nodup) (hd : (a, d) ∈ datas)
    (hep : alookup eps a = some ep) (hf : ep.send d = false) :
    alookup (sendToEndpoints eps datas).1 a = none ∧
      Action.closeEp a ∈ (sendToEndpoints eps datas).2 := by
  induction datas generalizing eps with
  | nil => cases hd
  | cons kv rest ih =>
    obtain ⟨a0, d0⟩ := kv
    simp only [List.map_cons, List.nodup_cons] at hnd
    rcases List.mem_cons.mp hd with h0 | h0
    · cases h0
      have hnone : alookup (aerase eps a) a = none := by
        rw [alookup_aerase]; simp
      refine ⟨?_, ?_⟩
      · simpa [sendToEndpoints, hep, hf] using
          sendToEndpoints_none rest (aerase eps a) a hnone
      · simp [sendToEndpoints, hep, hf]
    · have hne : a ≠ a0 := by
        intro he
        exact hnd.1 (he ▸ List.mem_map_of_mem Prod.fst h0)
      cases he0 : alookup eps a0 with
      | none =>
        have := ih eps hnd.2 h0 hep
        simpa [sendToEndpoints, he0] using this
      | some ep0 =>
        by_cases hs : ep0.send d0
        · simpa [sendToEndpoints, he0, hs] using ih eps hnd.2 h0 hep
        · have hep' : alookup (aerase eps a0) a = some ep := by
            rw [alookup_aerase]
            simp [hne, hep]
          have hrec := ih (aerase eps a0) hnd.2 h0 hep'
          simp [sendToEndpoints, he0, hs]
          exact ⟨hrec.1, Or.inr hrec.2⟩

theorem buildEndpoints_lookup (eps : EndpointMap) (addrs : List String)
    (res : EndpointMap) (a : String) :
    alookup (buildEndpoints eps addrs res) a =
      if a ∈ addrs ∧ (alookup eps a).isSome then alookup eps a
      else alookup res a := by
  induction addrs generalizing res with
  | nil => simp [buildEndpoints]
  | cons r rest ih =>
    cases h : alookup eps r with
    | none =>
      by_cases ha : a = r
      · subst ha
        simp [buildEndpoints, h, ih]
      · simp only [buildEndpoints, h, ih]
        by_cases hm : a ∈ rest <;> simp [hm, ha]
    | some ep =>
      by_cases ha : a = r
      · subst ha
        simp only [buildEndpoints, h, ih, alookup_aupsert]
        by_cases hm : a ∈ rest <;> simp [hm, h]
      · simp only [buildEndpoints, h, ih, alookup_aupsert]
        by_cases hm : a ∈ rest <;> simp [hm, ha]

theorem updateEndpoints_lookup (w : VbucketWorker) (eps : EndpointMap)
    (a : String) :
    alookup (w.updateEndpoints eps) a =
      if a ∈ collectAddrs w.engines then alookup eps a else none := by
  rw [VbucketWorker.updateEndpoints, buildEndpoints_lookup]
  by_cases hm : a ∈ collectAddrs w.engines
  · cases h : alookup eps a <;> simp [hm, h, alookup]
  · simp [hm, alookup]

theorem installEngines_eq_foldl (es : List (Nat × Engine)) :
    installEngines es = es.foldl instStep [] := by
  rfl

theorem lookup2_instStep_ne (eng : EngineMap) (kv : Nat × Engine)
    (cid uuid : Nat) (h : uuid ≠ kv.1) :
    lookup2 (instStep eng kv) cid uuid = lookup2 eng cid uuid := by
  cases h0 : alookup eng kv.2.collectionID with
  | some perColl =>
    by_cases hc : cid = kv.2.collectionID
    · subst hc
      simp [lookup2, instStep, h0, alookup_aupsert, h]
    · simp [lookup2, instStep, h0, alookup_aupsert, hc]
  | none =>
    by_cases hc : cid = kv.2.collectionID
    · subst hc
      simp [lookup2, instStep, h0, alookup_aupsert, alookup, h]
    · simp [lookup2, instStep, h0, alookup_aupsert, hc]

theorem lookup2_instStep_self (eng : EngineMap) (kv : Nat × Engine) (cid : Nat) :
    lookup2 (instStep eng kv) cid kv.1 =
      if cid = kv.2.collectionID then some kv.2 else lookup2 eng cid kv.1 := by
  cases h0 : alookup eng kv.2.collectionID with
  | some perColl =>
    by_cases hc : cid = kv.2.collectionID
    · subst hc
      simp [lookup2, instStep, h0, alookup_aupsert]
    · simp [lookup2, instStep, h0, alookup_aupsert, hc]
  | none =>
    by_cases hc : cid = kv.2.collectionID
    · subst hc
      simp [lookup2, instStep, h0, alookup_aupsert, alookup]
    · simp [lookup2, instStep, h0, alookup_aupsert, hc]

theorem lookup2_foldl_notmem (es : List (Nat × Engine)) (eng : EngineMap)
    (cid uuid : Nat) (h : uuid ∉ es.map Prod.fst) :
    lookup2 (es.foldl instStep eng) cid uuid = lookup2 eng cid uuid := by
  induction es generalizing eng with
  | nil => rfl
  | cons kv rest ih =>
    simp only [List.map_cons, List.mem_cons, not_or] at h
    rw [List.foldl_cons, ih (instStep eng kv) h.2,
      lookup2_instStep_ne eng kv cid uuid h.1]

theorem lookup2_foldl (es : List (Nat × Engine)) (eng : EngineMap)
    (cid uuid : Nat) (hnd : (es.map Prod.fst).Nodup) :
    lookup2 (es.foldl instStep eng) cid uuid =
      match alookup es uuid with
      | some e => if cid = e.collectionID then some e else lookup2 eng cid uuid
      | none => lookup2 eng cid uuid := by
  induction es generalizing eng with
  | nil => rfl
  | cons kv rest ih =>
    obtain ⟨u0, e0⟩ := kv
    simp only [List.map_cons, List.nodup_cons] at hnd
    by_cases hu : uuid = u0
    · subst hu
      rw [List.foldl_cons, lookup2_foldl_notmem rest (instStep eng (uuid, e0)) cid uuid hnd.1]
      have := lookup2_instStep_self eng (uuid, e0) cid
      simp only at this
      simp [alookup, this]
    · rw [List.foldl_cons, ih (instStep eng (u0, e0)) hnd.2]
      have ha : alookup ((u0, e0) :: rest) uuid = alookup rest uuid := by
        simp [alookup, hu]
      rw [ha]
      cases h0 : alookup rest uuid with
      | some e =>
        by_cases hc : cid = e.collectionID <;>
          simp [h0, hc, lookup2_instStep_ne eng (u0, e0) cid uuid hu]
      | none => simp [h0, lookup2_instStep_ne eng (u0, e0) cid uuid hu]

theorem installEngines_lookup (es : List (Nat × Engine)) (cid uuid : Nat)
    (hnd : (es.map Prod.fst).Nodup) :
    lookup2 (installEngines es) cid uuid =
      match alookup es uuid with
      | some e => if cid = e.collectionID then some e else none
      | none => none := by
  rw [installEngines_eq_foldl, lookup2_foldl es [] cid uuid hnd]
  cases alookup es uuid <;> simp [lookup2, alookup]

theorem streamEndVbnos_shutdownLoop (l : List (Nat × Vbucket))
    (w : VbucketWorker) :
    streamEndVbnos (shutdownLoop w l).2 = l.map (fun kv => kv.2.vbno) := by
  induction l generalizing w with
  | nil => rfl
  | cons kv rest ih =>
    simp only [shutdownLoop, makeStreamEndData, VbucketWorker.broadcast2Endpoints]
    simp only [streamEndVbnos, List.filterMap_append, List.filterMap_cons]
    have h1 := streamEndVbnos_sendAll w.endpoints
      (Payload.streamEnd kv.2.vbno kv.2.seqno)
    simp only [streamEndVbnos] at h1
    simp [h1, List.map_cons]
    exact ih _

/-- Helper: on an Open shard, a Mutation, Deletion or Expiration whose
collection has no registered engine takes the update-sequence-only
path: counter and sequence number update, updateSeqno statistic
increments, one update-sequence-only broadcast, no transform. -/
theorem handleEvent_no_engines (w : VbucketWorker) (m : DcpEvent) (v : Vbucket)
    (hop : m.opcode = Opcode.mutation ∨ m.opcode = Opcode.deletion ∨
      m.opcode = Opcode.expiration)
    (hv : alookup w.vbuckets m.vbucket = some v)
    (he : alookup w.engines m.collectionID = none) :
    w.handleEvent m =
      ({ w with
          vbuckets := aupsert w.vbuckets m.vbucket
            { v with mutationCount := v.mutationCount + 1, seqno := m.seqno },
          statUpdateSeqno := w.statUpdateSeqno + 1,
          endpoints := (sendAll w.endpoints (Payload.updateSeqno v.vbno m.seqno)).1 },
        some { v with mutationCount := v.mutationCount + 1, seqno := m.seqno },
        Action.publish (Payload.updateSeqno v.vbno m.seqno) ::
          (sendAll w.endpoints (Payload.updateSeqno v.vbno m.seqno)).2) := by
  rcases hop with h | h | h <;>
    simp [VbucketWorker.handleEvent, h, hv, he, makeUpdateSeqnoData,
      VbucketWorker.broadcast2Endpoints]

/-- C1: on an Open shard the stored sequence number becomes the event's
sequence number exactly for Mutation, Deletion, Expiration, System
event and Sequence-advanced; Snapshot marker and OSO snapshot leave it
unchanged. -/
theorem C1_seqno_update_iff_advancing_opcode (w : VbucketWorker) (m : DcpEvent)
    (v : Vbucket)
    (hop : m.opcode ∈ [Opcode.snapshot, Opcode.mutation, Opcode.deletion,
      Opcode.expiration, Opcode.systemEvent, Opcode.seqnoAdvanced,
      Opcode.osoSnapshot])
    (hv : alookup w.vbuckets m.vbucket = some v) :
    storedSeqno (w.handleEvent m).1 m.vbucket =
      some (if m.opcode ∈ [Opcode.mutation, Opcode.deletion, Opcode.expiration,
          Opcode.systemEvent, Opcode.seqnoAdvanced] then m.seqno else v.seqno) := by
  simp only [List.mem_cons, List.not_mem_nil, or_false] at hop
  rcases hop with h | h | h | h | h | h | h
  · simp [storedSeqno, VbucketWorker.handleEvent, h, hv, makeSnapshotData,
      VbucketWorker.broadcast2Endpoints, alookup_aupsert]
  · cases hE : alookup w.engines m.collectionID with
    | some engines =>
      simp [storedSeqno, VbucketWorker.handleEvent, h, hv, hE,
        VbucketWorker.processMutation, alookup_aupsert]
    | none =>
      simp [storedSeqno, VbucketWorker.handleEvent, h, hv, hE,
        makeUpdateSeqnoData, VbucketWorker.broadcast2Endpoints, alookup_aupsert]
  · cases hE : alookup w.engines m.collectionID with
    | some engines =>
      simp [storedSeqno, VbucketWorker.handleEvent, h, hv, hE,
        VbucketWorker.processMutation, alookup_aupsert]
    | none =>
      simp [storedSeqno, VbucketWorker.handleEvent, h, hv, hE,
        makeUpdateSeqnoData, VbucketWorker.broadcast2Endpoints, alookup_aupsert]
  · cases hE : alookup w.engines m.collectionID with
    | some engines =>
      simp [storedSeqno, VbucketWorker.handleEvent, h, hv, hE,
        VbucketWorker.processMutation, alookup_aupsert]
    | none =>
      simp [storedSeqno, VbucketWorker.handleEvent, h, hv, hE,
        makeUpdateSeqnoData, VbucketWorker.broadcast2Endpoints, alookup_aupsert]
  · simp [storedSeqno, VbucketWorker.handleEvent, h, hv, makeSystemEventData,
      VbucketWorker.broadcast2Endpoints, alookup_aupsert]
  · simp [storedSeqno, VbucketWorker.handleEvent, h, hv, makeSeqnoAdvancedEvent,
      VbucketWorker.broadcast2Endpoints, alookup_aupsert]
  · simp [storedSeqno, VbucketWorker.handleEvent, h, hv, makeOSOSnapshotEvent,
      VbucketWorker.broadcast2Endpoints, alookup_aupsert]

/-- C1 witness. -/
theorem C1_witness :
    storedSeqno (wOpenFix.handleEvent mMutFix).1 1 =
      some (if Opcode.mutation ∈ [Opcode.mutation, Opcode.deletion,
          Opcode.expiration, Opcode.systemEvent, Opcode.seqnoAdvanced]
        then 5 else 2) :=
  C1_seqno_update_iff_advancing_opcode wOpenFix mMutFix vbFix
    (by decide) (by rfl)

/-- C2: a Mutation, Deletion or Expiration on an Open shard whose
collection id has no registered engine broadcasts an
update-sequence-only signal to every endpoint, increments the
updateSeqno statistic, advances the stored sequence number to the
event's, and invokes no transform. -/
theorem C2_no_engine_update_seqno_only (w : VbucketWorker) (m : DcpEvent)
    (v : Vbucket)
    (hop : m.opcode ∈ [Opcode.mutation, Opcode.deletion, Opcode.expiration])
    (hv : alookup w.vbuckets m.vbucket = some v)
    (he : alookup w.engines m.collectionID = none) :
    (w.handleEvent m).1.statUpdateSeqno = w.statUpdateSeqno + 1 ∧
    storedSeqno (w.handleEvent m).1 m.vbucket = some m.seqno ∧
    (w.handleEvent m).2.2 =
      Action.publish (Payload.updateSeqno v.vbno m.seqno) ::
        (sendAll w.endpoints (Payload.updateSeqno v.vbno m.seqno)).2 ∧
    sentAddrs (w.handleEvent m).2.2 = w.endpoints.map Prod.fst ∧
    transformCount (w.handleEvent m).2.2 = 0 := by
  simp only [List.mem_cons, List.not_mem_nil, or_false] at hop
  rw [handleEvent_no_engines w m v hop hv he]
  refine ⟨rfl, ?_, rfl, ?_, ?_⟩
  · simp [storedSeqno, alookup_aupsert]
  · have h1 := sentAddrs_sendAll w.endpoints (Payload.updateSeqno v.vbno m.seqno)
    simp only [sentAddrs, List.filterMap_cons] at h1 ⊢
    exact h1
  · have h1 := transformCount_sendAll w.endpoints
      (Payload.updateSeqno v.vbno m.seqno)
    simp only [transformCount, List.filterMap_cons] at h1 ⊢
    exact h1

/-- C2 witness. -/
theorem C2_witness :
    (wOpenFix.handleEvent mMutNoEngFix).1.statUpdateSeqno =
        wOpenFix.statUpdateSeqno + 1 ∧
    storedSeqno (wOpenFix.handleEvent mMutNoEngFix).1 1 = some 6 ∧
    (wOpenFix.handleEvent mMutNoEngFix).2.2 =
      Action.publish (Payload.updateSeqno 1 6) ::
        (sendAll wOpenFix.endpoints (Payload.updateSeqno 1 6)).2 ∧
    sentAddrs (wOpenFix.handleEvent mMutNoEngFix).2.2 =
      wOpenFix.endpoints.map Prod.fst ∧
    transformCount (wOpenFix.handleEvent mMutNoEngFix).2.2 = 0 :=
  C2_no_engine_update_seqno_only wOpenFix mMutNoEngFix vbFix
    (by decide) (by rfl) (by rfl)

/-- C5: a successful StreamBegin for a shard that is already Open is
rejected: the worker state is unchanged, the existing shard state is
returned untouched, and no signal is published. -/
theorem C5_duplicate_streambegin_rejected (w : VbucketWorker) (m : DcpEvent)
    (v : Vbucket)
    (hop : m.opcode = Opcode.streamReq) (hst : m.status = SUCCESS)
    (hv : alookup w.vbuckets m.vbucket = some v) :
    w.handleEvent m = (w, some v, []) := by
  simp [VbucketWorker.handleEvent, hop, hst, hv]

/-- C5 witness. -/
theorem C5_witness :
    wOpenFix.handleEvent mDupFix = (wOpenFix, some vbFix, []) :=
  C5_duplicate_streambegin_rejected wOpenFix mDupFix vbFix rfl rfl (by rfl)

/-- C8: a Snapshot, Mutation, Deletion, Expiration, System event,
Sequence-advanced or OSO-snapshot event for a shard with no Open state
is dropped: the worker state is untouched, nothing is published, and
the event loop continues. -/
theorem C8_event_without_open_shard_dropped (w : VbucketWorker) (m : DcpEvent)
    (hop : m.opcode ∈ [Opcode.snapshot, Opcode.mutation, Opcode.deletion,
      Opcode.expiration, Opcode.systemEvent, Opcode.seqnoAdvanced,
      Opcode.osoSnapshot])
    (hv : alookup w.vbuckets m.vbucket = none) :
    w.handleEvent m = (w, none, []) ∧
      (w.runStepEvent m).2.1 = Outcome.next := by
  simp only [List.mem_cons, List.not_mem_nil, or_false] at hop
  have hdrop : ∀ w0 : VbucketWorker, alookup w0.vbuckets m.vbucket = none →
      w0.handleEvent m = (w0, none, []) := by
    intro w0 hv0
    rcases hop with h | h | h | h | h | h | h <;>
      simp [VbucketWorker.handleEvent, h, hv0]
  refine ⟨hdrop w hv, ?_⟩
  have h1 := hdrop { w with statOutgoingMut := w.statOutgoingMut + 1 } hv
  simp [VbucketWorker.runStepEvent, h1]

/-- C8 witness. -/
theorem C8_witness :
    wEmptyFix.handleEvent mSnapFix = (wEmptyFix, none, []) ∧
      (wEmptyFix.runStepEvent mSnapFix).2.1 = Outcome.next :=
  C8_event_without_open_shard_dropped wEmptyFix mSnapFix (by decide) (by rfl)

/-- C10: Install/Replace Engines with a nil engines argument leaves the
engine map empty regardless of the endpoints argument (the reset
precedes the nil check), and any worker whose engine map is empty sends
only an update-sequence-only signal for every Mutation, Deletion or
Expiration on an Open shard, invoking no transform. -/
theorem C10_nil_engines_reset (w : VbucketWorker) (opq : Nat)
    (eps? : Option EndpointMap) (w' : VbucketWorker) (m : DcpEvent)
    (v : Vbucket)
    (hop : m.opcode ∈ [Opcode.mutation, Opcode.deletion, Opcode.expiration])
    (hv : alookup w'.vbuckets m.vbucket = some v)
    (hemp : w'.engines = []) :
    (w.handleCommand (Command.addEngines opq none eps?)).1.engines = [] ∧
    (w'.handleEvent m).2.2 =
      Action.publish (Payload.updateSeqno v.vbno m.seqno) ::
        (sendAll w'.endpoints (Payload.updateSeqno v.vbno m.seqno)).2 ∧
    transformCount (w'.handleEvent m).2.2 = 0 ∧
    (w'.handleEvent m).1.statUpdateSeqno = w'.statUpdateSeqno + 1 := by
  have he : alookup w'.engines m.collectionID = none := by
    rw [hemp]; rfl
  simp only [List.mem_cons, List.not_mem_nil, or_false] at hop
  have h2 := handleEvent_no_engines w' m v hop hv he
  refine ⟨?_, ?_, ?_, ?_⟩
  · cases eps? <;> simp [VbucketWorker.handleCommand]
  · rw [h2]
  · rw [h2]
    have h1 := transformCount_sendAll w'.endpoints
      (Payload.updateSeqno v.vbno m.seqno)
    simp only [transformCount, List.filterMap_cons] at h1 ⊢
    exact h1
  · rw [h2]

/-- C10 witness. -/
theorem C10_witness :
    (wEngFix.handleCommand (Command.addEngines 0 none none)).1.engines = [] ∧
    (wOpenFix.handleEvent mDelFix).2.2 =
      Action.publish (Payload.updateSeqno 1 8) ::
        (sendAll wOpenFix.endpoints (Payload.updateSeqno 1 8)).2 ∧
    transformCount (wOpenFix.handleEvent mDelFix).2.2 = 0 ∧
    (wOpenFix.handleEvent mDelFix).1.statUpdateSeqno =
      wOpenFix.statUpdateSeqno + 1 :=
  C10_nil_engines_reset wEngFix 0 none wOpenFix mDelFix vbFix
    (by decide) (by rfl) rfl

/-- C4: closing a worker with N Open shards broadcasts exactly one
StreamEnd publication per still-Open shard, and every publication
precedes the termination-channel close and closed-flag set that end the
trace; the closed flag is set once termination completes. -/
theorem C4_close_publishes_streamend_per_shard (w : VbucketWorker)
    (hnd : (w.vbuckets.map (fun kv => kv.2.vbno)).Nodup) :
    w.closeWorker.2 =
      (shutdownLoop (w.handleCommand Command.close).1 w.vbuckets).2 ++
        [Action.closeFinch, Action.setClosed] ∧
    streamEndVbnos w.closeWorker.2 = w.vbuckets.map (fun kv => kv.2.vbno) ∧
    (streamEndVbnos w.closeWorker.2).length = w.vbuckets.length ∧
    (streamEndVbnos w.closeWorker.2).Nodup ∧
    w.closeWorker.1.statClosed = true := by
  have h2 : streamEndVbnos w.closeWorker.2 = w.vbuckets.map (fun kv => kv.2.vbno) := by
    have hb : w.closeWorker.2 =
        (shutdownLoop w w.vbuckets).2 ++ [Action.closeFinch, Action.setClosed] := rfl
    rw [hb]
    simp only [streamEndVbnos, List.filterMap_append]
    have h1 := streamEndVbnos_shutdownLoop w.vbuckets w
    simp only [streamEndVbnos] at h1
    simp [h1]
  refine ⟨rfl, h2, ?_, ?_, rfl⟩
  · rw [h2, List.length_map]
  · rw [h2]
    exact hnd

/-- C4 witness. -/
theorem C4_witness :
    wTwoFix.closeWorker.2 =
      (shutdownLoop (wTwoFix.handleCommand Command.close).1 wTwoFix.vbuckets).2 ++
        [Action.closeFinch, Action.setClosed] ∧
    streamEndVbnos wTwoFix.closeWorker.2 =
      wTwoFix.vbuckets.map (fun kv => kv.2.vbno) ∧
    (streamEndVbnos wTwoFix.closeWorker.2).length = wTwoFix.vbuckets.length ∧
    (streamEndVbnos wTwoFix.closeWorker.2).Nodup ∧
    wTwoFix.closeWorker.1.statClosed = true :=
  C4_close_publishes_streamend_per_shard wTwoFix (by decide)

/-- C6: in a broadcast, a sink whose Send fails receives exactly one
attempt, is closed and evicted, while every other sink still receives
the same payload; the evicted sink gets no attempt in the next
broadcast; in the per-mutation delivery loop each addressed live sink
receives its payload and a failing one is closed and evicted without
failing the rest. -/
theorem C6_send_failure_evicts_only_that_endpoint
    (eps : EndpointMap) (p q : Payload) (kv kv' : String × RouterEndpoint)
    (datas : List (String × Payload)) (a : String) (d : Payload)
    (ep : RouterEndpoint)
    (hnd : (eps.map Prod.fst).Nodup) (hmem : kv ∈ eps)
    (hfail : kv.2.send p = false) (hmem' : kv' ∈ eps)
    (hdn : (datas.map Prod.fst).Nodup) (hd : (a, d) ∈ datas)
    (hep : alookup eps a = some ep) :
    Action.send kv.1 p false ∈ (sendAll eps p).2 ∧
    Action.closeEp kv.1 ∈ (sendAll eps p).2 ∧
    kv.1 ∉ (sendAll eps p).1.map Prod.fst ∧
    Action.send kv'.1 p (kv'.2.send p) ∈ (sendAll eps p).2 ∧
    sentAddrs (sendAll eps p).2 = eps.map Prod.fst ∧
    kv.1 ∉ sentAddrs (sendAll (sendAll eps p).1 q).2 ∧
    Action.send a d (ep.send d) ∈ (sendToEndpoints eps datas).2 ∧
    (ep.send d = false →
      alookup (sendToEndpoints eps datas).1 a = none ∧
        Action.closeEp a ∈ (sendToEndpoints eps datas).2) := by
  refine ⟨?_, ?_, ?_, ?_, ?_, ?_, ?_, ?_⟩
  · have h := sendAll_mem_send eps p kv hmem
    rw [hfail] at h
    exact h
  · exact sendAll_fail_close eps p kv hmem hfail
  · exact sendAll_evicted eps p kv hnd hmem hfail
  · exact sendAll_mem_send eps p kv' hmem'
  · exact sentAddrs_sendAll eps p
  · rw [sentAddrs_sendAll]
    exact sendAll_evicted eps p kv hnd hmem hfail
  · exact sendToEndpoints_mem_send datas eps a d ep hdn hd hep
  · intro hf
    exact sendToEndpoints_fail datas eps a d ep hdn hd hep hf

/-- C6 witness. -/
theorem C6_witness :
    Action.send "A" (Payload.sync 1 1) false ∈
      (sendAll [("A", epFailFix), ("B", epOkFix)] (Payload.sync 1 1)).2 ∧
    Action.closeEp "A" ∈
      (sendAll [("A", epFailFix), ("B", epOkFix)] (Payload.sync 1 1)).2 ∧
    "A" ∉ (sendAll [("A", epFailFix), ("B", epOkFix)]
        (Payload.sync 1 1)).1.map Prod.fst ∧
    Action.send "B" (Payload.sync 1 1) (epOkFix.send (Payload.sync 1 1)) ∈
      (sendAll [("A", epFailFix), ("B", epOkFix)] (Payload.sync 1 1)).2 ∧
    sentAddrs (sendAll [("A", epFailFix), ("B", epOkFix)]
        (Payload.sync 1 1)).2 =
      ([("A", epFailFix), ("B", epOkFix)] : EndpointMap).map Prod.fst ∧
    "A" ∉ sentAddrs (sendAll (sendAll [("A", epFailFix), ("B", epOkFix)]
        (Payload.sync 1 1)).1 (Payload.sync 1 2)).2 ∧
    Action.send "A" (Payload.sync 2 2) (epFailFix.send (Payload.sync 2 2)) ∈
      (sendToEndpoints [("A", epFailFix), ("B", epOkFix)]
        [("A", Payload.sync 2 2), ("B", Payload.sync 3 3)]).2 ∧
    (epFailFix.send (Payload.sync 2 2) = false →
      alookup (sendToEndpoints [("A", epFailFix), ("B", epOkFix)]
          [("A", Payload.sync 2 2), ("B", Payload.sync 3 3)]).1 "A" = none ∧
        Action.closeEp "A" ∈
          (sendToEndpoints [("A", epFailFix), ("B", epOkFix)]
            [("A", Payload.sync 2 2), ("B", Payload.sync 3 3)]).2) :=
  C6_send_failure_evicts_only_that_endpoint
    [("A", epFailFix), ("B", epOkFix)] (Payload.sync 1 1) (Payload.sync 1 2)
    ("A", epFailFix) ("B", epOkFix)
    [("A", Payload.sync 2 2), ("B", Payload.sync 3 3)] "A" (Payload.sync 2 2)
    epFailFix (by decide) (List.Mem.head _) rfl
    (List.Mem.tail _ (List.Mem.head _)) (by decide) (by decide) rfl

/-- C3 counterexample: install engines for collections 1 and 2 routed
to sinks A and B with a candidate set holding A and B, then Remove the
collection-2 engine; sink B stays in the endpoint table although no
remaining installed engine references it, so after this engine-map
mutation the table is not exactly the referenced-and-candidate set. -/
theorem C3_counterexample :
    ¬ endpointsExactly
        ((wEmptyFix.handleCommand
            (Command.addEngines 0 (some [(10, engAFix), (11, engBFix)])
              (some candidatesFix))).1.handleCommand
          (Command.delEngines 0 [11] [2])).1
        candidatesFix := by
  intro h
  have hB := (h "B").mp (by decide)
  exact absurd hB.1 (by decide)

/-- C3 (amended): after Install/Replace Engines with a non-nil
candidate set, the endpoint table holds exactly the addresses that a
currently-installed engine references and the candidate set holds;
Remove Engines leaves the endpoint table unchanged. -/
theorem C3_amended_endpoint_table (w : VbucketWorker) (opq : Nat)
    (es : List (Nat × Engine)) (eps : EndpointMap) (a : String)
    (engineKeys : List Nat) (collectionIds : List Nat) :
    ((alookup (w.handleCommand
        (Command.addEngines opq (some es) (some eps))).1.endpoints a).isSome = true ↔
      (a ∈ collectAddrs (w.handleCommand
          (Command.addEngines opq (some es) (some eps))).1.engines ∧
        (alookup eps a).isSome = true)) ∧
    (w.handleCommand
      (Command.delEngines opq engineKeys collectionIds)).1.endpoints =
      w.endpoints := by
  constructor
  · have h1 : (w.handleCommand
        (Command.addEngines opq (some es) (some eps))).1.endpoints =
        buildEndpoints eps (collectAddrs (installEngines es)) [] := rfl
    have h2 : (w.handleCommand
        (Command.addEngines opq (some es) (some eps))).1.engines =
        installEngines es := rfl
    rw [h1, h2, buildEndpoints_lookup]
    by_cases hm : a ∈ collectAddrs (installEngines es)
    · cases he : alookup eps a <;> simp [hm, he, alookup]
    · simp [hm, alookup]
  · rfl

/-- C9 counterexample: invoking Install/Replace Engines with a nil
candidate endpoint set does not recompute the endpoint table: sink A
survives although the call provided no candidate set, so the claimed
unconditional recomputation fails on this invocation. -/
theorem C9_counterexample :
    ¬ endpointsExactly
        (wEpFix.handleCommand (Command.addEngines 0 none none)).1 [] := by
  intro h
  have hA := (h "A").mp (by decide)
  exact absurd hA.1 (by decide)

/-- C9 (amended): Install/Replace Engines replaces the engine map
wholesale with exactly the engines passed in, keyed by collection id
then engine id and never merged with the prior map, and returns the
current sequence number of every Open shard; the endpoint table is
recomputed exactly from the passed candidate set when that argument is
non-nil, and left untouched when it is nil. -/
theorem C9_amended_addEngines_wholesale (w : VbucketWorker) (opq : Nat)
    (es : List (Nat × Engine)) (eps : EndpointMap) (cid uuid : Nat)
    (a : String) (hnd : (es.map Prod.fst).Nodup) :
    lookup2 (w.handleCommand
        (Command.addEngines opq (some es) (some eps))).1.engines cid uuid =
      (match alookup es uuid with
       | some e => if cid = e.collectionID then some e else none
       | none => none) ∧
    alookup (w.handleCommand
        (Command.addEngines opq (some es) (some eps))).1.endpoints a =
      (if a ∈ collectAddrs (installEngines es) then alookup eps a else none) ∧
    (w.handleCommand (Command.addEngines opq (some es) (some eps))).2.1 =
      Response.seqnos (w.vbuckets.map (fun kv => (kv.1, kv.2.seqno))) ∧
    (w.handleCommand (Command.addEngines opq (some es) none)).1.engines =
      (w.handleCommand (Command.addEngines opq (some es) (some eps))).1.engines ∧
    (w.handleCommand (Command.addEngines opq (some es) none)).1.endpoints =
      w.endpoints := by
  refine ⟨?_, ?_, rfl, rfl, rfl⟩
  · have h2 : (w.handleCommand
        (Command.addEngines opq (some es) (some eps))).1.engines =
        installEngines es := rfl
    rw [h2, installEngines_lookup es cid uuid hnd]
  · have h1 : (w.handleCommand
        (Command.addEngines opq (some es) (some eps))).1.endpoints =
        buildEndpoints eps (collectAddrs (installEngines es)) [] := rfl
    rw [h1, buildEndpoints_lookup]
    by_cases hm : a ∈ collectAddrs (installEngines es)
    · cases he : alookup eps a <;> simp [hm, he, alookup]
    · simp [hm, alookup]

/-- C9 witness. -/
theorem C9_witness :
    lookup2 (wEpFix.handleCommand
        (Command.addEngines 0 (some [(10, engAFix)])
          (some candidatesFix))).1.engines 1 10 =
      (match alookup [(10, engAFix)] 10 with
       | some e => if 1 = e.collectionID then some e else none
       | none => none) ∧
    alookup (wEpFix.handleCommand
        (Command.addEngines 0 (some [(10, engAFix)])
          (some candidatesFix))).1.endpoints "A" =
      (if "A" ∈ collectAddrs (installEngines [(10, engAFix)])
        then alookup candidatesFix "A" else none) ∧
    (wEpFix.handleCommand (Command.addEngines 0 (some [(10, engAFix)])
        (some candidatesFix))).2.1 =
      Response.seqnos (wEpFix.vbuckets.map (fun kv => (kv.1, kv.2.seqno))) ∧
    (wEpFix.handleCommand
        (Command.addEngines 0 (some [(10, engAFix)]) none)).1.engines =
      (wEpFix.handleCommand (Command.addEngines 0 (some [(10, engAFix)])
        (some candidatesFix))).1.engines ∧
    (wEpFix.handleCommand
        (Command.addEngines 0 (some [(10, engAFix)]) none)).1.endpoints =
      wEpFix.endpoints :=
  C9_amended_addEngines_wholesale wEpFix 0 [(10, engAFix)] candidatesFix
    1 10 "A" (by decide)

/-- Helper: for every opcode other than StreamBegin, handleEvent on an
Open shard returns a shard state carrying the stored correlation id. -/
theorem handleEvent_returns_some (w : VbucketWorker) (m : DcpEvent) (v : Vbucket)
    (hv : alookup w.vbuckets m.vbucket = some v)
    (hop : m.opcode ≠ Opcode.streamReq) :
    ∃ v', (w.handleEvent m).2.1 = some v' ∧ v'.opaq = v.opaq := by
  cases h : m.opcode
  case streamReq => exact absurd h hop
  case snapshot =>
    refine ⟨{ v with sshotCount := v.sshotCount + 1 }, ?_, rfl⟩
    simp [VbucketWorker.handleEvent, h, hv, makeSnapshotData,
      VbucketWorker.broadcast2Endpoints]
  case mutation =>
    cases hE : alookup w.engines m.collectionID with
    | some engines =>
      refine ⟨{ v with mutationCount := v.mutationCount + 1, seqno := m.seqno },
        ?_, rfl⟩
      simp [VbucketWorker.handleEvent, h, hv, hE, VbucketWorker.processMutation]
    | none =>
      refine ⟨{ v with mutationCount := v.mutationCount + 1, seqno := m.seqno },
        ?_, rfl⟩
      simp [VbucketWorker.handleEvent, h, hv, hE, makeUpdateSeqnoData,
        VbucketWorker.broadcast2Endpoints]
  case deletion =>
    cases hE : alookup w.engines m.collectionID with
    | some engines =>
      refine ⟨{ v with mutationCount := v.mutationCount + 1, seqno := m.seqno },
        ?_, rfl⟩
      simp [VbucketWorker.handleEvent, h, hv, hE, VbucketWorker.processMutation]
    | none =>
      refine ⟨{ v with mutationCount := v.mutationCount + 1, seqno := m.seqno },
        ?_, rfl⟩
      simp [VbucketWorker.handleEvent, h, hv, hE, makeUpdateSeqnoData,
        VbucketWorker.broadcast2Endpoints]
  case expiration =>
    cases hE : alookup w.engines m.collectionID with
    | some engines =>
      refine ⟨{ v with mutationCount := v.mutationCount + 1, seqno := m.seqno },
        ?_, rfl⟩
      simp [VbucketWorker.handleEvent, h, hv, hE, VbucketWorker.processMutation]
    | none =>
      refine ⟨{ v with mutationCount := v.mutationCount + 1, seqno := m.seqno },
        ?_, rfl⟩
      simp [VbucketWorker.handleEvent, h, hv, hE, makeUpdateSeqnoData,
        VbucketWorker.broadcast2Endpoints]
  case systemEvent =>
    refine ⟨{ v with seqno := m.seqno }, ?_, rfl⟩
    simp [VbucketWorker.handleEvent, h, hv, makeSystemEventData,
      VbucketWorker.broadcast2Endpoints]
  case seqnoAdvanced =>
    refine ⟨{ v with seqno := m.seqno }, ?_, rfl⟩
    simp [VbucketWorker.handleEvent, h, hv, makeSeqnoAdvancedEvent,
      VbucketWorker.broadcast2Endpoints]
  case osoSnapshot =>
    refine ⟨v, ?_, rfl⟩
    simp [VbucketWorker.handleEvent, h, hv, makeOSOSnapshotEvent,
      VbucketWorker.broadcast2Endpoints]
  case streamEnd =>
    refine ⟨v, ?_, rfl⟩
    simp [VbucketWorker.handleEvent, h, hv, makeStreamEndData,
      VbucketWorker.broadcast2Endpoints]

/-- C7 (amended): the event loop terminates the process exactly for an
event on an Open shard, other than StreamEnd (and other than a
failure-status StreamBegin), whose correlation id (the Opaque field)
disagrees with the stored one; the epoch id (VBuuid) plays no role, and
no other event-processing path terminates the process. -/
theorem C7_amended_exit_iff_correlation_mismatch (w : VbucketWorker)
    (m : DcpEvent) :
    (w.runStepEvent m).2.1 = Outcome.exit ↔
      (m.opcode ≠ Opcode.streamEnd ∧
       (m.opcode = Opcode.streamReq → m.status = SUCCESS) ∧
       storedOpaq w m.vbucket ≠ none ∧
       storedOpaq w m.vbucket ≠ some m.opaq) := by
  cases hv : alookup w.vbuckets m.vbucket with
  | none =>
    have hv1 : alookup ({ w with statOutgoingMut := w.statOutgoingMut + 1 } :
        VbucketWorker).vbuckets m.vbucket = none := hv
    have hnext : (w.runStepEvent m).2.1 = Outcome.next := by
      cases h : m.opcode
      case streamReq =>
        simp [VbucketWorker.runStepEvent, VbucketWorker.handleEvent, h, hv1,
          NewVbucket, makeStreamBeginData, VbucketWorker.broadcast2Endpoints]
      all_goals
        simp [VbucketWorker.runStepEvent, VbucketWorker.handleEvent, h, hv1]
    rw [hnext]
    simp [storedOpaq, hv]
  | some v =>
    have hv1 : alookup ({ w with statOutgoingMut := w.statOutgoingMut + 1 } :
        VbucketWorker).vbuckets m.vbucket = some v := hv
    by_cases hse : m.opcode = Opcode.streamEnd
    · have hnext : (w.runStepEvent m).2.1 = Outcome.next := by
        obtain ⟨v', hr, hq⟩ := handleEvent_returns_some
          { w with statOutgoingMut := w.statOutgoingMut + 1 } m v hv1
          (by rw [hse]; intro hc; cases hc)
        simp only [VbucketWorker.runStepEvent, hr, hse]
        simp
      rw [hnext]
      simp [hse]
    · by_cases hsr : m.opcode = Opcode.streamReq
      · by_cases hst : m.status = SUCCESS
        · have hdup : ({ w with statOutgoingMut := w.statOutgoingMut + 1 } :
              VbucketWorker).handleEvent m =
              ({ w with statOutgoingMut := w.statOutgoingMut + 1 }, some v, []) := by
            simp [VbucketWorker.handleEvent, hsr, hst, hv1]
          by_cases hq : m.opaq = v.opaq
          · have hnext : (w.runStepEvent m).2.1 = Outcome.next := by
              simp [VbucketWorker.runStepEvent, hdup, hsr, hq]
            rw [hnext]
            simp [storedOpaq, hv, hq]
          · have hexit : (w.runStepEvent m).2.1 = Outcome.exit := by
              simp [VbucketWorker.runStepEvent, hdup, hsr, hq]
            rw [hexit]
            simp [storedOpaq, hv, hse, hsr, hst]
            intro hc
            exact absurd hc.symm hq
        · have hnext : (w.runStepEvent m).2.1 = Outcome.next := by
            simp [VbucketWorker.runStepEvent, VbucketWorker.handleEvent, hsr,
              hst, hv1, NewVbucket, makeStreamBeginData,
              VbucketWorker.broadcast2Endpoints]
          rw [hnext]
          simp [hsr, hst]
      · obtain ⟨v', hr, hq⟩ := handleEvent_returns_some
          { w with statOutgoingMut := w.statOutgoingMut + 1 } m v hv1 hsr
        by_cases hmq : m.opaq = v.opaq
        · have hnext : (w.runStepEvent m).2.1 = Outcome.next := by
            simp only [VbucketWorker.runStepEvent, hr]
            simp [hse, hq, hmq]
          rw [hnext]
          simp [storedOpaq, hv, hmq]
        · have hexit : (w.runStepEvent m).2.1 = Outcome.exit := by
            simp only [VbucketWorker.runStepEvent, hr]
            simp [hse, hq, hmq]
          rw [hexit]
          simp [storedOpaq, hv, hse, hsr]
          intro hc
          exact absurd hc.symm hmq

/-- C7 counterexample: a Mutation on an Open shard whose epoch id
(VBuuid) disagrees with the stored one while its correlation id agrees
is processed without terminating the process, so an epoch-id mismatch
is not what triggers the fatal exit. -/
theorem C7_counterexample :
    alookup wOpenFix.vbuckets mEpochFix.vbucket = some vbFix ∧
    mEpochFix.vbuuid ≠ vbFix.vbuuid ∧
    mEpochFix.opcode = Opcode.mutation ∧
    (wOpenFix.runStepEvent mEpochFix).2.1 = Outcome.next := by
  refine ⟨by decide, by decide, rfl, by decide⟩

end Projector
